import Mathlib

/-!
Verification development for the execution core of the ark kernel: the
execution coordinator (crates/ark/src/interface.rs), the comm relay
(crates/ark/src/frontend/frontend.rs and crates/amalthea/src/socket/comm.rs),
and the dynamic dispatch registry (crates/ark/src/variables/methods.rs),
shallowly embedded in Lean. Effects (channel receives, R API calls) become
explicit parameters or trace actions; Rust byte strings are modelled by Lean
strings and their character lists.
-/

namespace Ark

/-- Prefix test on character lists, the semantics of Rust str::starts_with. -/
def charsStartWith : List Char → List Char → Bool
  | _, [] => true
  | [], _ :: _ => false
  | c :: cs, p :: ps => c == p && charsStartWith cs ps

/-- Rust s.starts_with(pat), on the character content of the two strings. -/
def strStartsWith (s pat : String) : Bool :=
  charsStartWith s.data pat.data

/-- Rust str::split_once on character lists: splits at the first occurrence
of the separator, returning the parts before and after it, or nothing when
the separator does not occur. -/
def splitOnceChar (sep : Char) : List Char → Option (List Char × List Char)
  | [] => none
  | c :: rest =>
    if c == sep then some ([], rest)
    else
      match splitOnceChar sep rest with
      | some (a, b) => some (c :: a, b)
      | none => none

/-- Rust name.split_once on the dot character, as used by parse_method. -/
def split_once_dot (s : String) : Option (String × String) :=
  match splitOnceChar (Char.ofNat 46) s.data with
  | some (a, b) => some (String.mk a, String.mk b)
  | none => none

/-! ### interface.rs: the read-console callback and console input -/

/-- Effect of on_console_input (interface.rs): a newline is appended to the
input; if the result is longer than the interpreter-supplied buffer length,
the input is dropped (result none, buffer untouched, only a log line);
otherwise libc strcpy copies the characters of the input plus a terminating
NUL byte into the buffer. The returned list is exactly the byte sequence
that strcpy writes. -/
def on_console_input (input : String) (buflen : Nat) : Option (List Char) :=
  let input := input ++ "\n"
  if input.length > buflen then none
  else some (input.data ++ [Char.ofNat 0])

/-- One outcome of receiver.recv_timeout in the read-console loop of
r_read_console (interface.rs): a reply carrying optional console input
(none encodes the no-more-input shutdown signal), a timeout tick, or a
disconnected channel error. -/
inductive RecvOutcome
  | reply (input : Option String)
  | timeout
  | disconnected
deriving DecidableEq

/-- Atomic observable actions performed by r_read_console (interface.rs):
releasing and reacquiring the global runtime lock guard, blocking on the
console-input receiver, pumping R_ProcessEvents, copying bytes straight
into the interpreter buffer via strcpy, invoking on_console_input,
publishing the prompt on the prompt channel, and returning. -/
inductive ConsoleAction
  | releaseLock
  | waitForReply
  | reacquireLock
  | pumpEvents
  | copyToBuffer (s : String)
  | consoleInput (s : String)
  | sendPrompt (p : String)
  | ret (code : Int)
deriving DecidableEq

/-- The console-input read loop of r_read_console (interface.rs, the loop
starting at line 113), as a trace over a schedule of recv_timeout
outcomes. Each iteration releases the runtime lock guard and blocks on the
receiver; a reply reacquires the guard, feeds concrete input through
on_console_input, and returns 1; a reply of none reacquires the guard and
returns 1 at once; a timeout reacquires the guard, pumps R_ProcessEvents
once, and continues; a disconnect reacquires the guard and returns 1. An
exhausted schedule ends the trace. -/
def readConsoleLoop : List RecvOutcome → List ConsoleAction
  | [] => []
  | o :: rest =>
    ConsoleAction.releaseLock :: ConsoleAction.waitForReply ::
      match o with
      | RecvOutcome.reply none =>
        [ConsoleAction.reacquireLock, ConsoleAction.ret 1]
      | RecvOutcome.reply (some s) =>
        [ConsoleAction.reacquireLock, ConsoleAction.consoleInput s, ConsoleAction.ret 1]
      | RecvOutcome.timeout =>
        ConsoleAction.reacquireLock :: ConsoleAction.pumpEvents :: readConsoleLoop rest
      | RecvOutcome.disconnected =>
        [ConsoleAction.reacquireLock, ConsoleAction.ret 1]

/-- r_read_console (interface.rs): a prompt beginning with Save workspace is
answered by copying the two characters n and newline straight into the
buffer and returning 1; any other prompt is published on the prompt channel
and the read loop is entered. -/
def r_read_console (prompt : String) (outcomes : List RecvOutcome) : List ConsoleAction :=
  if strStartsWith prompt "Save workspace" then
    [ConsoleAction.copyToBuffer "n\n", ConsoleAction.ret 1]
  else
    ConsoleAction.sendPrompt prompt :: readConsoleLoop outcomes

/-- Simulation of the runtime lock guard along a trace: releaseLock and
reacquireLock update the held flag, and the check fails exactly when a
waitForReply action occurs while the guard is held. -/
def lockDisciplineOk : Bool → List ConsoleAction → Bool
  | _, [] => true
  | held, ConsoleAction.waitForReply :: rest => !held && lockDisciplineOk held rest
  | _, ConsoleAction.releaseLock :: rest => lockDisciplineOk false rest
  | _, ConsoleAction.reacquireLock :: rest => lockDisciplineOk true rest
  | held, _ :: rest => lockDisciplineOk held rest

/-! ### interface.rs: the request loop and prompt classification -/

/-- Execution requests (request.rs), restricted to what the coordinator
distinguishes: an evaluate request carrying the code text and the
originator handle, or any other request kind. -/
inductive Request
  | executeCode (code : String) (originator : List Nat)
  | other
deriving DecidableEq

/-- The action complete_execute_request (interface.rs) takes after receiving
one prompt: report the request incomplete, forward a nested input request
carrying the originator and the prompt text, or finish the request. -/
inductive ExecEvent
  | reportIncomplete
  | requestInput (originator : List Nat) (prompt : String)
  | finishRequest
deriving DecidableEq

/-- complete_execute_request (interface.rs, lines 285 to 328) after the
prompt has been received: a prompt starting with the plus sign reports the
request incomplete; otherwise the configured default prompt is read (the
result of r_get_option is passed here as the defaultPrompt argument, an
error finishing the request as in the source); a prompt differing from the
default forwards an input request with the originator of the evaluate
request (or an empty originator for other request kinds); an equal prompt
finishes the request. -/
def complete_execute_request (req : Request) (prompt : String)
    (defaultPrompt : Except String String) : ExecEvent :=
  if strStartsWith prompt "+" then ExecEvent.reportIncomplete
  else
    match defaultPrompt with
    | Except.error _ => ExecEvent.finishRequest
    | Except.ok dp =>
      if prompt ≠ dp then
        match req with
        | Request.executeCode _ originator => ExecEvent.requestInput originator prompt
        | Request.other => ExecEvent.requestInput [] prompt
      else ExecEvent.finishRequest

/-- The three completion classifications of the specification. -/
inductive Classification
  | incomplete
  | awaitingInput
  | finished
deriving DecidableEq

/-- The classification reported by one ExecEvent. -/
def classify : ExecEvent → Classification
  | ExecEvent.reportIncomplete => Classification.incomplete
  | ExecEvent.requestInput _ _ => Classification.awaitingInput
  | ExecEvent.finishRequest => Classification.finished

/-- The request-consuming loop of listen (interface.rs, lines 330 to 354)
together with handle_r_request: requests are taken one at a time in
submission order; an evaluate request is completed by running
complete_execute_request on exactly one received prompt (the prompt stream
is abstracted as a function of a cursor), after which the loop moves to the
next request — in particular the branch that forwards a nested input
request returns without waiting for any further prompt. Other request
kinds are fulfilled without consuming a prompt. The result pairs each
emitted classification with the index of the request it was reported
for. -/
def listenLoop (prompts : Nat → String) (defaultPrompt : Except String String) :
    List Request → Nat → Nat → List (Nat × Classification)
  | [], _, _ => []
  | req :: rest, idx, pc =>
    match req with
    | Request.executeCode c o =>
      (idx, classify (complete_execute_request (Request.executeCode c o) (prompts pc) defaultPrompt))
        :: listenLoop prompts defaultPrompt rest (idx + 1) (pc + 1)
    | Request.other => listenLoop prompts defaultPrompt rest (idx + 1) pc

/-- Whether a request is an evaluate request. -/
def isExecute : Request → Bool
  | Request.executeCode _ _ => true
  | Request.other => false

/-- The indices (relative to a starting index) of the evaluate requests in a
request list; the reference trace of which requests receive classification
events. -/
def executeIndices : List Request → Nat → List Nat
  | [], _ => []
  | Request.executeCode _ _ :: rest, idx => idx :: executeIndices rest (idx + 1)
  | Request.other :: rest, idx => executeIndices rest (idx + 1)

/-- The classifications reported for request index i, in order. -/
def eventsFor (events : List (Nat × Classification)) (i : Nat) : List Classification :=
  (events.filter (fun e => e.1 == i)).map Prod.snd

/-- The terminal pattern claim C2 asserts for each evaluate request: its
event list is Incomplete alone, AwaitingInput followed by Finished, or
Finished alone. -/
def c2Pattern (evts : List Classification) : Prop :=
  evts = [Classification.incomplete]
    ∨ evts = [Classification.awaitingInput, Classification.finished]
    ∨ evts = [Classification.finished]

/-! ### frontend.rs and comm.rs: the comm relay -/

/-- Comm channel messages (the CommChannelMsg tagged union): an opaque data
payload, a close signal, or an RPC request carrying a correlation id and a
payload. Payloads are abstracted as strings. -/
inductive CommChannelMsg
  | data (payload : String)
  | close
  | rpc (id : String) (payload : String)
deriving DecidableEq

/-- PositronFrontend handle_comm_message (frontend.rs, lines 99 to 105):
returns whether the session loop should continue — true for a data
payload, false for a close signal, true for an RPC request. No branch
constructs or sends anything. -/
def handle_comm_message : CommChannelMsg → Bool
  | CommChannelMsg.data _ => true
  | CommChannelMsg.close => false
  | CommChannelMsg.rpc _ _ => true

/-- The outgoing comm messages each branch of handle_comm_message
(frontend.rs) sends while handling one incoming message: none — no branch
touches the outgoing queue (outgoing sends occur only in dispatch_event,
for internally generated events, and are data messages). -/
def handle_comm_message_sends : CommChannelMsg → List CommChannelMsg
  | CommChannelMsg.data _ => []
  | CommChannelMsg.close => []
  | CommChannelMsg.rpc _ _ => []

/-- CommHandlers handle_request (amalthea comm.rs, lines 143 to 153): an RPC
message is destructured and Ok true is returned without constructing any
reply; any other message returns Ok false. -/
def CommHandlers_handle_request : CommChannelMsg → Except String Bool
  | CommChannelMsg.rpc _ _ => Except.ok true
  | _ => Except.ok false

/-- One run of PositronFrontend execution_thread (frontend.rs, lines 43 to
78) over the queued incoming messages: the loop reads messages in order
while handle_comm_message returns true and breaks on the message for which
it returns false (the close signal). Returns the messages the run observed
and the part of the queue it left unread. -/
def execution_thread : List CommChannelMsg → List CommChannelMsg × List CommChannelMsg
  | [] => ([], [])
  | m :: rest =>
    if handle_comm_message m then
      let r := execution_thread rest
      (m :: r.1, r.2)
    else ([m], rest)

/-- The outgoing messages produced while handling a list of observed
incoming messages. -/
def sendsOf : List CommChannelMsg → List CommChannelMsg
  | [] => []
  | m :: rest => handle_comm_message_sends m ++ sendsOf rest

/-- All outgoing comm messages the session loop produces while servicing
its incoming queue. -/
def sessionOutgoing (msgs : List CommChannelMsg) : List CommChannelMsg :=
  sendsOf (execution_thread msgs).1

/-- Whether an outgoing message is an RPC reply correlated to id r. -/
def isReplyTo (r : String) : CommChannelMsg → Bool
  | CommChannelMsg.rpc id _ => id == r
  | _ => false

/-- The thread body spawned by PositronFrontend start (frontend.rs, lines
32 to 38): a loop that constructs the frontend over the same comm socket
and event receiver and calls execution_thread again every time it returns.
Fuel bounds the number of restarts (each run over a nonempty queue
consumes at least one message, so the queue length suffices); with an
empty queue the thread blocks with nothing further to observe. Returns
every incoming message observed across all runs. -/
def frontendThreadLoop : Nat → List CommChannelMsg → List CommChannelMsg
  | 0, _ => []
  | _ + 1, [] => []
  | fuel + 1, m :: rest =>
    let r := execution_thread (m :: rest)
    r.1 ++ frontendThreadLoop fuel r.2

/-- The messages the spawned frontend comm thread observes from a queue of
incoming messages, restarts included. -/
def frontendThread (queue : List CommChannelMsg) : List CommChannelMsg :=
  frontendThreadLoop queue.length queue

/-! ### methods.rs: the dynamic dispatch registry -/

/-- The capability enumeration ArkGenerics (methods.rs) with its strum
serializations. -/
inductive ArkGenerics
  | variableDisplayValue
  | variableDisplayType
  | variableHasChildren
  | variableKind
deriving DecidableEq

/-- The serialized generic name of each capability (the strum serialize
attributes in methods.rs). -/
def ArkGenerics.toName : ArkGenerics → String
  | ArkGenerics.variableDisplayValue => "ark_variable_display_value"
  | ArkGenerics.variableDisplayType => "ark_variable_display_type"
  | ArkGenerics.variableHasChildren => "ark_variable_has_children"
  | ArkGenerics.variableKind => "ark_variable_kind"

/-- Iteration order of ArkGenerics iter, the declaration order of the
variants (strum EnumIter). -/
def ArkGenerics.iterAll : List ArkGenerics :=
  [ArkGenerics.variableDisplayValue, ArkGenerics.variableDisplayType,
    ArkGenerics.variableHasChildren, ArkGenerics.variableKind]

/-- An R value as the dispatch code observes it: whether r_is_object holds
(the value carries a class attribute, making it dispatch-eligible) and its
class vector. -/
structure RValue where
  isObject : Bool
  classes : List String
deriving DecidableEq

/-- Lookup in the method table, most recent registration first
(last-write-wins is obtained by prepending on registration). -/
def registryLookup (registry : List ((ArkGenerics × String) × String))
    (key : ArkGenerics × String) : Option String :=
  match registry with
  | [] => none
  | (k, v) :: rest => if k = key then some v else registryLookup rest key

/-- First registered method result along a class vector. -/
def firstMethod (registry : List ((ArkGenerics × String) × String))
    (generic : ArkGenerics) : List String → Option String
  | [] => none
  | cls :: rest =>
    match registryLookup registry (generic, cls) with
    | some v => some v
    | none => firstMethod registry generic rest

/-- Modelled from the spec: the R-level helper call_ark_method invoked by
try_dispatch is not under src (only its Rust caller is). Per the spec, the
registry maps a capability and class-string pair to an interpreter-side
implementation resolved at call time against the dynamic type of the
target, and a target with no registered implementation for the capability
under its dynamic type yields the absent result — here the R NULL return
is the none value, and a found method returns its result for the target.
The class vector is walked in order, as S3 dispatch does. -/
def call_ark_method (registry : List ((ArkGenerics × String) × String))
    (generic : ArkGenerics) (x : RValue) : Option String :=
  firstMethod registry generic x.classes

/-- ArkGenerics try_dispatch (methods.rs, lines 49 to 86): a value that is
not an object short-circuits to Ok none before any dispatch machinery
runs; otherwise call_ark_method is invoked, a NULL result maps to Ok none,
and a method result is converted (the TryFrom conversion is the convert
argument), a conversion failure becoming an error. The Boolean component
of the result records whether the dispatch machinery was invoked at
all. -/
def try_dispatch (registry : List ((ArkGenerics × String) × String))
    (generic : ArkGenerics) (x : RValue)
    (convert : String → Except String String) :
    Except String (Option String) × Bool :=
  if !x.isObject then (Except.ok none, false)
  else
    match call_ark_method registry generic x with
    | none => (Except.ok none, true)
    | some v =>
      match convert v with
      | Except.ok t => (Except.ok (some t), true)
      | Except.error e => (Except.error ("Conversion failed: " ++ e), true)

/-- The inner loop of ArkGenerics parse_method (methods.rs, lines 126 to
136): walk the generics in iteration order; if the symbol name starts with
the serialized generic name and the name splits at a dot, return the
generic together with the text after the first dot (the class); a name
with no dot falls through to the next generic. -/
def parseMethodLoop : List ArkGenerics → String → Option (ArkGenerics × String)
  | [], _ => none
  | g :: rest, name =>
    if strStartsWith name g.toName then
      match split_once_dot name with
      | some pr => some (g, pr.2)
      | none => parseMethodLoop rest name
    else parseMethodLoop rest name

/-- ArkGenerics parse_method (methods.rs): checks whether a symbol name is
a method of some capability and extracts its class. -/
def parse_method (name : String) : Option (ArkGenerics × String) :=
  parseMethodLoop ArkGenerics.iterAll name

/-- The symbol loop of populate_variable_methods_table (methods.rs, lines
150 to 169): walk the symbol names of one namespace in order; a name
parse_method recognizes is registered through the register argument (which
stands for ArkGenerics register_method_from_package, whose call into R can
fail); the question-mark operator propagates a registration error
immediately, abandoning the remaining names of the namespace. Returns the
pairs registered at this level together with the error, if any. -/
def populate_scan (register : ArkGenerics → String → String → Except String Unit)
    (package : String) : List String → List (ArkGenerics × String) × Option String
  | [] => ([], none)
  | name :: rest =>
    match parse_method name with
    | some gc =>
      match register gc.1 gc.2 package with
      | Except.error e => ([], some e)
      | Except.ok _ =>
        let r := populate_scan register package rest
        (gc :: r.1, r.2)
    | none => populate_scan register package rest

/-- populate_methods_from_loaded_namespaces (methods.rs, lines 139 to 148):
every loaded namespace is scanned in turn, and a failed scan is logged via
or_log_error and does not stop the iteration over the remaining
namespaces. Each namespace is paired with the outcome of its scan. -/
def populate_methods_from_loaded_namespaces
    (register : ArkGenerics → String → String → Except String Unit)
    (namespaces : List (String × List String)) :
    List (String × (List (ArkGenerics × String) × Option String)) :=
  namespaces.map fun ns => (ns.1, populate_scan register ns.1 ns.2)

/-- A registration function for which registering any method with class foo
fails (standing for a symbol that matches the naming convention but whose
registration fails to resolve), while every other registration
succeeds. -/
def failFoo : ArkGenerics → String → String → Except String Unit :=
  fun _ cls _ => if cls = "foo" then Except.error "lookup failed" else Except.ok ()

/-! ### Theorems -/

/-- Helper: along any read-loop trace, the simulated runtime lock guard is
never held when a wait action occurs, from either starting state. -/
theorem lockDisciplineOk_readConsoleLoop (outcomes : List RecvOutcome) :
    ∀ held, lockDisciplineOk held (readConsoleLoop outcomes) = true := by
  induction outcomes with
  | nil => intro held; rfl
  | cons o rest ih =>
    intro held
    cases o with
    | reply i =>
      cases i with
      | none => rfl
      | some s => rfl
    | timeout =>
      simpa [readConsoleLoop, lockDisciplineOk] using ih true
    | disconnected => rfl

/-- C3: the runtime lock guard is never held across the blocking wait for
front-end input — starting from the guard-held state in which R invokes
the callback, the simulated guard is released before every wait action of
the r_read_console trace — and a timeout tick reacquires the guard and
pumps R_ProcessEvents exactly once before the reply channel is checked
again (the trace of a timeout outcome is release, wait, reacquire, one
pump, followed by the re-entered loop). -/
theorem read_console_lock_discipline :
    (∀ prompt outcomes, lockDisciplineOk true (r_read_console prompt outcomes) = true)
    ∧ ∀ rest, readConsoleLoop (RecvOutcome.timeout :: rest)
        = ConsoleAction.releaseLock :: ConsoleAction.waitForReply ::
            ConsoleAction.reacquireLock :: ConsoleAction.pumpEvents :: readConsoleLoop rest := by
  constructor
  · intro prompt outcomes
    by_cases h : strStartsWith prompt "Save workspace" = true
    · simp [r_read_console, h, lockDisciplineOk]
    · simp only [Bool.not_eq_true] at h
      simpa [r_read_console, h, lockDisciplineOk] using
        lockDisciplineOk_readConsoleLoop outcomes true
  · intro rest
    rfl

/-- C8: a console-input reply of none (no more input) makes the read loop
reacquire the guard and return 1 immediately: whatever outcomes would have
followed, the remaining trace is fixed, writes nothing through
on_console_input, and contains exactly the one wait that received the
reply, with no event pumping. -/
theorem read_console_none_returns_immediately :
    ∀ rest, readConsoleLoop (RecvOutcome.reply none :: rest)
        = [ConsoleAction.releaseLock, ConsoleAction.waitForReply,
            ConsoleAction.reacquireLock, ConsoleAction.ret 1]
      ∧ (∀ s, ConsoleAction.consoleInput s ∉ readConsoleLoop (RecvOutcome.reply none :: rest))
      ∧ (readConsoleLoop (RecvOutcome.reply none :: rest)).count ConsoleAction.waitForReply = 1
      ∧ (readConsoleLoop (RecvOutcome.reply none :: rest)).count ConsoleAction.pumpEvents = 0 := by
  intro rest
  have h : readConsoleLoop (RecvOutcome.reply none :: rest)
      = [ConsoleAction.releaseLock, ConsoleAction.waitForReply,
          ConsoleAction.reacquireLock, ConsoleAction.ret 1] := rfl
  refine ⟨h, ?_, ?_, ?_⟩
  · intro s
    rw [h]
    simp
  · rw [h]
    rfl
  · rw [h]
    rfl

/-- C9: a prompt beginning with Save workspace is answered directly: the
callback copies the characters n and newline into the interpreter buffer
and returns 1, publishes nothing on the prompt channel, and never waits
for a console-input reply. -/
theorem read_console_save_workspace :
    ∀ prompt outcomes, strStartsWith prompt "Save workspace" = true →
      r_read_console prompt outcomes
          = [ConsoleAction.copyToBuffer "n\n", ConsoleAction.ret 1]
        ∧ (∀ p, ConsoleAction.sendPrompt p ∉ r_read_console prompt outcomes)
        ∧ (r_read_console prompt outcomes).count ConsoleAction.waitForReply = 0 := by
  intro prompt outcomes h
  have he : r_read_console prompt outcomes
      = [ConsoleAction.copyToBuffer "n\n", ConsoleAction.ret 1] := by
    simp [r_read_console, h]
  refine ⟨he, ?_, ?_⟩
  · intro p
    rw [he]
    simp
  · rw [he]
    rfl

/-- Witness for C9 at the concrete workspace prompt. -/
theorem read_console_save_workspace_witness :
    strStartsWith "Save workspace image? [y/n/c]: " "Save workspace" = true
    ∧ (r_read_console "Save workspace image? [y/n/c]: " [RecvOutcome.timeout]
          = [ConsoleAction.copyToBuffer "n\n", ConsoleAction.ret 1]
      ∧ (∀ p, ConsoleAction.sendPrompt p
          ∉ r_read_console "Save workspace image? [y/n/c]: " [RecvOutcome.timeout])
      ∧ (r_read_console "Save workspace image? [y/n/c]: " [RecvOutcome.timeout]).count
          ConsoleAction.waitForReply = 0) :=
  ⟨by decide,
    read_console_save_workspace "Save workspace image? [y/n/c]: " [RecvOutcome.timeout] (by decide)⟩

/-- C10: the size guard of on_console_input drops an input whose length
plus the appended newline exceeds the buffer length, but the strcpy it
guards also writes a terminating NUL byte, so at the boundary the guard
admits a write of one byte more than the buffer holds: with a buffer of
length 2 and the one-character input x, the guard passes (2 is not greater
than 2) and the copy writes the 3 bytes x, newline, NUL into the 2-byte
buffer. -/
theorem on_console_input_nul_overrun :
    on_console_input "x" 2 = some [Char.ofNat 120, Char.ofNat 10, Char.ofNat 0]
    ∧ (on_console_input "x" 2).elim 0 List.length = 3
    ∧ 2 < 3 := by
  refine ⟨?_, ?_, by decide⟩
  · rfl
  · rfl

/-- C1: on a prompt observation for an evaluate request, with a readable
configured default prompt, the classification is taken in priority order —
a continuation prompt (starting with the plus sign) reports the request
incomplete and nothing else happens for it; otherwise a prompt differing
from the default forwards the prompt text and the originator of the
request to the front end as a nested input request; otherwise the request
is reported finished. -/
theorem complete_execute_request_classification :
    ∀ code orig prompt dp,
      (strStartsWith prompt "+" = true →
        complete_execute_request (Request.executeCode code orig) prompt (Except.ok dp)
          = ExecEvent.reportIncomplete)
      ∧ (strStartsWith prompt "+" = false → prompt ≠ dp →
        complete_execute_request (Request.executeCode code orig) prompt (Except.ok dp)
          = ExecEvent.requestInput orig prompt)
      ∧ (strStartsWith prompt "+" = false → prompt = dp →
        complete_execute_request (Request.executeCode code orig) prompt (Except.ok dp)
          = ExecEvent.finishRequest) := by
  intro code orig prompt dp
  refine ⟨fun h => ?_, fun h hne => ?_, fun h he => ?_⟩
  · simp [complete_execute_request, h]
  · simp [complete_execute_request, h, hne]
  · subst he
    simp [complete_execute_request, h]

/-- Witness for C1 at concrete prompts: a continuation prompt, a custom
readline prompt, and the default prompt. -/
theorem complete_execute_request_classification_witness :
    (strStartsWith "+ " "+" = true
      ∧ complete_execute_request (Request.executeCode "1 +" [1]) "+ " (Except.ok "> ")
          = ExecEvent.reportIncomplete)
    ∧ (strStartsWith "Enter a value: " "+" = false ∧ "Enter a value: " ≠ "> "
      ∧ complete_execute_request (Request.executeCode "readline()" [2]) "Enter a value: "
            (Except.ok "> ")
          = ExecEvent.requestInput [2] "Enter a value: ")
    ∧ (strStartsWith "> " "+" = false
      ∧ complete_execute_request (Request.executeCode "1" [3]) "> " (Except.ok "> ")
          = ExecEvent.finishRequest) :=
  ⟨⟨by decide,
      (complete_execute_request_classification "1 +" [1] "+ " "> ").1 (by decide)⟩,
    ⟨by decide, by decide,
      (complete_execute_request_classification "readline()" [2] "Enter a value: " "> ").2.1
        (by decide) (by decide)⟩,
    ⟨by decide,
      (complete_execute_request_classification "1" [3] "> " "> ").2.2 (by decide) rfl⟩⟩

/-- Counterexample to C2 as stated: submitting one evaluate request whose
execution raises a custom prompt (differing from the default prompt)
yields the event trace consisting of the single AwaitingInput
classification for request 0 and nothing further — the completion routine
returns after forwarding the input request without re-entering the
classification step, so no Finished is ever reported for that request, and
its event list matches none of the claimed terminal patterns (Incomplete
alone, AwaitingInput followed by Finished, Finished alone). -/
theorem listen_awaiting_input_no_finished_counterexample :
    listenLoop (fun _ => "Enter a value: ") (Except.ok "> ")
        [Request.executeCode "readline()" [1]] 0 0
      = [(0, Classification.awaitingInput)]
    ∧ ¬ c2Pattern (eventsFor
        (listenLoop (fun _ => "Enter a value: ") (Except.ok "> ")
          [Request.executeCode "readline()" [1]] 0 0) 0) := by
  constructor
  · rfl
  · intro h
    rcases h with h | h | h <;> exact absurd h (by decide)

/-- Helper: every index produced by executeIndices is at least the starting
index. -/
theorem executeIndices_lb :
    ∀ (reqs : List Request) (idx j : Nat), j ∈ executeIndices reqs idx → idx ≤ j := by
  intro reqs
  induction reqs with
  | nil => intro idx j h; simp [executeIndices] at h
  | cons r rest ih =>
    intro idx j h
    cases r with
    | executeCode c o =>
      simp only [executeIndices, List.mem_cons] at h
      rcases h with rfl | h
      · exact Nat.le_refl j
      · exact Nat.le_of_succ_le (ih (idx + 1) j h)
    | other =>
      simp only [executeIndices] at h
      exact Nat.le_of_succ_le (ih (idx + 1) j h)

/-- Helper: the indices of the evaluate requests are strictly increasing. -/
theorem executeIndices_pairwise :
    ∀ (reqs : List Request) (idx : Nat),
      List.Pairwise (fun a b => a < b) (executeIndices reqs idx) := by
  intro reqs
  induction reqs with
  | nil => intro idx; simp [executeIndices]
  | cons r rest ih =>
    intro idx
    cases r with
    | executeCode c o =>
      simp only [executeIndices]
      refine List.Pairwise.cons ?_ (ih (idx + 1))
      intro j hj
      exact Nat.lt_of_succ_le (executeIndices_lb rest (idx + 1) j hj)
    | other =>
      simpa [executeIndices] using ih (idx + 1)

/-- C2 amended: requests are handled strictly one at a time in submission
order and each evaluate request is reported exactly one classification
event — Incomplete, AwaitingInput, or Finished — by its completion step:
the request indices of the emitted events are exactly the indices of the
evaluate requests, in strictly increasing submission order. In particular
a request classified AwaitingInput receives no further event — no Finished
is reported for it. -/
theorem listen_one_classification_per_request :
    ∀ (prompts : Nat → String) (dp : Except String String)
      (reqs : List Request) (idx pc : Nat),
      (listenLoop prompts dp reqs idx pc).map Prod.fst = executeIndices reqs idx
      ∧ List.Pairwise (fun a b => a < b)
          ((listenLoop prompts dp reqs idx pc).map Prod.fst) := by
  intro prompts dp reqs
  have key : ∀ (reqs : List Request) (idx pc : Nat),
      (listenLoop prompts dp reqs idx pc).map Prod.fst = executeIndices reqs idx := by
    intro reqs
    induction reqs with
    | nil => intro idx pc; rfl
    | cons r rest ih =>
      intro idx pc
      cases r with
      | executeCode c o =>
        simp only [listenLoop, executeIndices, List.map_cons, List.cons.injEq, true_and]
        exact ih (idx + 1) (pc + 1)
      | other =>
        simpa [listenLoop, executeIndices] using ih (idx + 1) pc
  intro idx pc
  refine ⟨key reqs idx pc, ?_⟩
  rw [key reqs idx pc]
  exact executeIndices_pairwise reqs idx

/-- Helper: handling incoming messages never produces an outgoing send. -/
theorem sendsOf_eq_nil : ∀ msgs : List CommChannelMsg, sendsOf msgs = [] := by
  intro msgs
  induction msgs with
  | nil => rfl
  | cons m rest ih =>
    cases m <;> simpa [sendsOf, handle_comm_message_sends] using ih

/-- Counterexample to C4 as stated: delivering the RPC request with
correlation id r1 on the incoming queue leaves the session loop running
(it observes the request and continues) yet produces zero outgoing
messages — in particular not exactly one reply correlated to r1 — and the
default comm handler consumes the request reporting plain success rather
than an unhandled error. -/
theorem rpc_request_unanswered_counterexample :
    (execution_thread [CommChannelMsg.rpc "r1" "topic-x"]).1
        = [CommChannelMsg.rpc "r1" "topic-x"]
    ∧ handle_comm_message (CommChannelMsg.rpc "r1" "topic-x") = true
    ∧ (sessionOutgoing [CommChannelMsg.rpc "r1" "topic-x"]).filter (isReplyTo "r1") = []
    ∧ ((sessionOutgoing [CommChannelMsg.rpc "r1" "topic-x"]).filter (isReplyTo "r1")).length ≠ 1
    ∧ CommHandlers_handle_request (CommChannelMsg.rpc "r1" "topic-x") = Except.ok true := by
  refine ⟨rfl, rfl, rfl, ?_, rfl⟩
  intro h
  exact absurd h (by decide)

/-- C4 amended: an RPC request arriving on the incoming queue is observed
and the session loop continues, but no outgoing message of any kind is
produced while servicing the incoming queue — the correlation id is left
unanswered — and the comm-layer handler returns plain success for an RPC
message without constructing a reply or an unhandled report. -/
theorem rpc_request_no_reply :
    ∀ (id payload : String) (msgs : List CommChannelMsg),
      handle_comm_message (CommChannelMsg.rpc id payload) = true
      ∧ sessionOutgoing msgs = []
      ∧ CommHandlers_handle_request (CommChannelMsg.rpc id payload) = Except.ok true := by
  intro id payload msgs
  exact ⟨rfl, sendsOf_eq_nil (execution_thread msgs).1, rfl⟩

/-- C5: the comm channel is not terminal after a close signal. The spawn
wrapper of PositronFrontend start runs execution_thread inside a thread
loop, so when the close message breaks the inner session loop the thread
immediately restarts it over the same queues: with the incoming queue
holding a close signal followed by a data message, the restarted loop
observes the data message sent after the close — contradicting the claim
(and the doc comment of handle_comm_message, whose false return is
documented as the thread exiting). -/
theorem frontend_comm_reopens_after_close :
    frontendThread [CommChannelMsg.close, CommChannelMsg.data "after-close"]
      = [CommChannelMsg.close, CommChannelMsg.data "after-close"]
    ∧ CommChannelMsg.data "after-close"
        ∈ frontendThread [CommChannelMsg.close, CommChannelMsg.data "after-close"] := by
  constructor
  · rfl
  · simp [frontendThread, frontendThreadLoop, execution_thread, handle_comm_message]

/-- Helper: when no class of the vector has a registration for the
capability, walking the class vector finds no method. -/
theorem firstMethod_eq_none (registry : List ((ArkGenerics × String) × String))
    (generic : ArkGenerics) :
    ∀ classes : List String,
      (∀ cls ∈ classes, registryLookup registry (generic, cls) = none) →
      firstMethod registry generic classes = none := by
  intro classes
  induction classes with
  | nil => intro _; rfl
  | cons cls rest ih =>
    intro h
    have hhead := h cls (List.mem_cons_self cls rest)
    have htail := fun c hc => h c (List.mem_cons_of_mem cls hc)
    simp [firstMethod, hhead, ih htail]

/-- C6: a value that is not dispatch-eligible (r_is_object false) makes
try_dispatch return the absent result without the dispatch machinery ever
being invoked; and whenever no class of the target has a registered
implementation for the capability, try_dispatch returns the absent result
Ok none — never an error. -/
theorem try_dispatch_absent (registry : List ((ArkGenerics × String) × String))
    (generic : ArkGenerics) (x : RValue) (convert : String → Except String String) :
    (x.isObject = false →
      try_dispatch registry generic x convert = (Except.ok none, false))
    ∧ ((∀ cls ∈ x.classes, registryLookup registry (generic, cls) = none) →
      (try_dispatch registry generic x convert).1 = Except.ok none) := by
  constructor
  · intro h
    simp [try_dispatch, h]
  · intro h
    by_cases hobj : x.isObject
    · simp [try_dispatch, hobj, call_ark_method,
        firstMethod_eq_none registry generic x.classes h]
    · simp only [Bool.not_eq_true] at hobj
      simp [try_dispatch, hobj]

/-- Witness for C6: an empty registry, a plain (non-object) value and an
object value with one class. -/
theorem try_dispatch_absent_witness :
    try_dispatch [] ArkGenerics.variableKind (RValue.mk false ["numeric"]) Except.ok
        = (Except.ok none, false)
    ∧ (try_dispatch [] ArkGenerics.variableKind (RValue.mk true ["numeric"]) Except.ok).1
        = Except.ok none :=
  ⟨(try_dispatch_absent [] ArkGenerics.variableKind (RValue.mk false ["numeric"]) Except.ok).1
      rfl,
    (try_dispatch_absent [] ArkGenerics.variableKind (RValue.mk true ["numeric"]) Except.ok).2
      (by intro cls _; rfl)⟩

/-- Counterexample to C7 as stated: scanning a namespace whose symbol table
holds two names matching the naming convention, where registration of the
first fails to resolve, aborts the scan — the error propagates out of the
symbol loop, nothing is registered, and the second symbol, itself a valid
match, is never reached; the claim that a single failing symbol never
aborts the scan of the remaining symbols of that namespace is false. -/
theorem populate_scan_abort_counterexample :
    parse_method "ark_variable_kind.bar" = some (ArkGenerics.variableKind, "bar")
    ∧ populate_scan failFoo "pkg" ["ark_variable_kind.foo", "ark_variable_kind.bar"]
        = ([], some "lookup failed") := by
  constructor
  · rfl
  · rfl

/-- C7 amended: a symbol whose name matches a capability naming convention
but whose registration fails aborts the scan of the remaining symbols of
its namespace — the error propagates immediately and nothing further of
that namespace is registered; the failure is logged one level up, where
the iteration over loaded namespaces continues, every namespace being
scanned and reported regardless of failures elsewhere. -/
theorem populate_scan_abort_behavior
    (register : ArkGenerics → String → String → Except String Unit)
    (package name : String) (rest : List String)
    (g : ArkGenerics) (cls e : String)
    (namespaces : List (String × List String)) :
    (parse_method name = some (g, cls) → register g cls package = Except.error e →
      populate_scan register package (name :: rest) = ([], some e))
    ∧ (populate_methods_from_loaded_namespaces register namespaces).map Prod.fst
        = namespaces.map Prod.fst := by
  constructor
  · intro hparse hreg
    simp [populate_scan, hparse, hreg]
  · induction namespaces with
    | nil => rfl
    | cons ns rest _ih =>
      simp [populate_methods_from_loaded_namespaces]

/-- Witness for C7 amended at the concrete failing registration. -/
theorem populate_scan_abort_behavior_witness :
    parse_method "ark_variable_kind.foo" = some (ArkGenerics.variableKind, "foo")
    ∧ failFoo ArkGenerics.variableKind "foo" "pkg" = Except.error "lookup failed"
    ∧ populate_scan failFoo "pkg" ["ark_variable_kind.foo", "ark_variable_kind.bar"]
        = ([], some "lookup failed")
    ∧ (populate_methods_from_loaded_namespaces failFoo
          [("pkg", ["ark_variable_kind.foo"]), ("stats", [])]).map Prod.fst
        = [("pkg", ["ark_variable_kind.foo"]), ("stats", ([] : List String))].map Prod.fst :=
  ⟨by decide, rfl,
    (populate_scan_abort_behavior failFoo "pkg" "ark_variable_kind.foo"
        ["ark_variable_kind.bar"] ArkGenerics.variableKind "foo" "lookup failed"
        [("pkg", ["ark_variable_kind.foo"]), ("stats", [])]).1 (by decide) rfl,
    (populate_scan_abort_behavior failFoo "pkg" "ark_variable_kind.foo"
        ["ark_variable_kind.bar"] ArkGenerics.variableKind "foo" "lookup failed"
        [("pkg", ["ark_variable_kind.foo"]), ("stats", [])]).2⟩

end Ark
